import Mathlib

set_option autoImplicit false

/-!
# Verification of the `sql_query_engine` parameter validation and binding core

A shallow embedding of the repository `FXC-ai/sql_query_engine` (Rust).
Each definition mirrors one source item:

* `SqlQueryParamType`, `sqlQueryParamTypeFrom?`  ← `src/sql_query_param_type.rs`
* `SqlQuery`                                      ← `src/sql_query.rs`
* `SqlQueryParam`                                 ← `src/sql_query_param.rs`
* `SqlDynamicQueryData`                           ← `src/sql_dynamic_query_data.rs`
* `SqlDynamicQuery`, `check_query_params`,
  `validate_param_type`, `execute`                ← `src/sql_dynamic_query.rs`
* `get_sql_query_by_item_key`,
  `get_sql_query_params_by_item_key`,
  `get_sql_dynamic_query`                         ← `src/sql_query_manager.rs`

Modelling conventions:

* Rust `i32` integers are embedded as `Int`; overflow checks of `str::parse::<i32>`
  are made explicit against the `i32` bounds.
* The caller-supplied `HashMap<String, String>` is embedded as an association list
  `List (String × String)`; `get_param` is first-match lookup.  `HashMap` iteration
  order is unspecified in Rust, so no theorem below depends on which entry of the
  supplied map is visited first except through an existential.
* Rust panics (the `panic!` in `From<String> for SqlQueryParamType`) are embedded
  by an outer `Option` layer: `none` means the Rust code aborts the process.
* Fallible operations return `Except`.
* Error values are embedded structurally.  The Rust code formats each error into a
  message string inside a `SqlQueryEngineError` variant; each constructor below
  records, in its doc comment, the exact `format!` template it stands for, and
  carries the template's interpolated data as fields.
* The database pool is an external collaborator: fetch results are passed in as
  values (row lists / an explicit statement-runner function).
-/

/-- `SqlQueryParamType` from `src/sql_query_param_type.rs`. -/
inductive SqlQueryParamType : Type
  | string
  | i32
  | f64
  | bool
  | naiveDate
  | naiveDateTime
deriving DecidableEq, Repr

/-- `impl From<String> for SqlQueryParamType` from `src/sql_query_param_type.rs`.
The Rust `from` matches a fixed set of string literals; the catch-all arm is
`panic!("Unknown SQL query parameter type: ...")`, embedded here as `none`. -/
def sqlQueryParamTypeFrom? (value : String) : Option SqlQueryParamType :=
  match value with
  | "VARCHAR" | "Varchar" => some SqlQueryParamType.string
  | "BIGINT" | "INTEGER" | "Integer" => some SqlQueryParamType.i32
  | "DOUBLE PRECISION" | "DOUBLE_PRECISION" => some SqlQueryParamType.f64
  | "BOOLEAN" | "Boolean" => some SqlQueryParamType.bool
  | "DATE" | "Date" => some SqlQueryParamType.naiveDate
  | "DATETIME" | "DateTime" => some SqlQueryParamType.naiveDateTime
  | _ => none

/-- The complete list of type tags recognized by `From<String> for SqlQueryParamType`. -/
def recognizedTypeTags : List String :=
  ["VARCHAR", "Varchar", "BIGINT", "INTEGER", "Integer",
   "DOUBLE PRECISION", "DOUBLE_PRECISION", "BOOLEAN", "Boolean",
   "DATE", "Date", "DATETIME", "DateTime"]

/-- `SqlQuery` from `src/sql_query.rs`: one row of the queries table. -/
structure SqlQuery : Type where
  id : Int
  name : String
  description : Option String
  sql_code : String
  item_key : String
  sign : Option String
deriving DecidableEq, Repr

/-- `SqlQueryParam` from `src/sql_query_param.rs`: one row of the parameters table. -/
structure SqlQueryParam : Type where
  id : Int
  param_name : String
  param_type : String
  param_order : Int
  is_required : Int
  default_value : Option String
  description : Option String
  item_key : String
deriving DecidableEq, Repr

/-- `SqlDynamicQueryData` from `src/sql_dynamic_query_data.rs`: the caller-supplied
item key plus the name → raw-string-value map (a `HashMap` in Rust, an association
list here). -/
structure SqlDynamicQueryData : Type where
  item_key : String
  params : List (String × String)
deriving DecidableEq, Repr

/-- `SqlDynamicQueryData::get_param`: `self.params.get(key)` on the `HashMap`,
embedded as first-match lookup in the association list. -/
def SqlDynamicQueryData.get_param (d : SqlDynamicQueryData) (key : String) : Option String :=
  (d.params.find? (fun kv => kv.1 == key)).map (fun kv => kv.2)

/-- `SqlDynamicQuery` from `src/sql_dynamic_query.rs`. -/
structure SqlDynamicQuery : Type where
  query : SqlQuery
  params : Option (List SqlQueryParam)
deriving DecidableEq, Repr

/-! ## Raw-string parsers used at validation and bind time

`validate_param_type` and `execute` call the Rust standard library and external
crates (`str::parse::<i32>`, `str::parse::<f64>`, the `regex` crate,
`chrono::NaiveDate/NaiveDateTime::parse_from_str`).  These collaborators are
modelled here; each model's doc comment records its scope.
-/

/-- Splits a leading run of ASCII digits from a character list. -/
def takeDigits (cs : List Char) : List Char × List Char :=
  (cs.takeWhile Char.isDigit, cs.dropWhile Char.isDigit)

/-- Numeric value of a list of ASCII digits, most significant first. -/
def digitsToNat (cs : List Char) : Nat :=
  cs.foldl (fun acc c => acc * 10 + (c.toNat - 48)) 0

/-- Models Rust `str::parse::<i32>`: an optional `+`/`-` sign followed by one or
more ASCII digits making up the whole string, with the value required to fit in
the signed 32-bit range; anything else is a parse error (`none`). -/
def parseI32? (s : String) : Option Int :=
  match s.data with
  | [] => none
  | c :: rest =>
    let neg : Bool := c == '-'
    let digits : List Char := if c == '-' || c == '+' then rest else c :: rest
    if digits.isEmpty then none
    else if digits.all Char.isDigit then
      let n : Int := (digitsToNat digits : Int)
      let v : Int := if neg then -n else n
      if -2147483648 ≤ v ∧ v ≤ 2147483647 then some v else none
    else none

/-- ASCII lower-casing of one character (sufficient for the `inf`/`nan` keywords). -/
def asciiLower (c : Char) : Char :=
  if 'A' ≤ c ∧ c ≤ 'Z' then Char.ofNat (c.toNat + 32) else c

/-- Models Rust `str::to_lowercase` as ASCII lower-casing (Rust's version is
full Unicode; every theorem below evaluates it only on ASCII inputs, and the
two call sites in the source — the `Bool` arms of `validate_param_type` and of
`execute` — call the identical Rust function, which is what the round-trip
theorems rely on). -/
def toLowerAscii (s : String) : String :=
  String.mk (s.data.map asciiLower)

/-- Drops one optional leading `+`/`-` sign. -/
def stripSign (cs : List Char) : List Char :=
  match cs with
  | '+' :: r => r
  | '-' :: r => r
  | _ => cs

/-- Mantissa of the Rust float grammar: `Digit+ | Digit+ . Digit* | Digit* . Digit+`.
Returns whether a mantissa was consumed and the remaining characters. -/
def parseMantissa (cs : List Char) : Bool × List Char :=
  let (ip, r) := takeDigits cs
  match r with
  | '.' :: r2 =>
    let (fp, r3) := takeDigits r2
    (!ip.isEmpty || !fp.isEmpty, r3)
  | _ => (!ip.isEmpty, r)

/-- Exponent suffix of the Rust float grammar: empty, or `e`/`E`, optional sign,
one or more digits, consuming the rest of the string. -/
def parseExponentSuffix (cs : List Char) : Bool :=
  match cs with
  | [] => true
  | c :: r =>
    if c == 'e' || c == 'E' then
      let (ds, rest) := takeDigits (stripSign r)
      !ds.isEmpty && rest.isEmpty
    else false

/-- Models acceptance by Rust `str::parse::<f64>` (the value itself is not needed
by any theorem below, only success/failure): an optional sign followed by
`inf`, `infinity` or `nan` (case-insensitive) or by a decimal number with an
optional exponent.  Overflowing numerals saturate to infinity in Rust and still
parse successfully, so no magnitude check appears here. -/
def rustParseF64Accepts (s : String) : Bool :=
  let cs := stripSign s.data
  let lower := cs.map asciiLower
  if lower == ['i', 'n', 'f'] ||
     lower == ['i', 'n', 'f', 'i', 'n', 'i', 't', 'y'] ||
     lower == ['n', 'a', 'n'] then true
  else
    let (okm, rest) := parseMantissa cs
    okm && parseExponentSuffix rest

/-- The regex `^\d{4}-\d{2}-\d{2}$` of `validate_param_type` (`regex` crate).
The model restricts `\d` to ASCII digits; the regex crate's `\d` is Unicode, but
every theorem below evaluates this only on ASCII inputs. -/
def matchesDatePattern (s : String) : Bool :=
  match s.data with
  | [y1, y2, y3, y4, s1, m1, m2, s2, d1, d2] =>
    y1.isDigit && y2.isDigit && y3.isDigit && y4.isDigit && s1 == '-' &&
    m1.isDigit && m2.isDigit && s2 == '-' && d1.isDigit && d2.isDigit
  | _ => false

/-- The regex `^\d{4}-\d{2}-\d{2} \d{2}:\d{2}:\d{2}$` of `validate_param_type`,
with the same ASCII restriction as `matchesDatePattern`. -/
def matchesDateTimePattern (s : String) : Bool :=
  match s.data with
  | [y1, y2, y3, y4, s1, m1, m2, s2, d1, d2, sp, h1, h2, c1, n1, n2, c2, e1, e2] =>
    y1.isDigit && y2.isDigit && y3.isDigit && y4.isDigit && s1 == '-' &&
    m1.isDigit && m2.isDigit && s2 == '-' && d1.isDigit && d2.isDigit &&
    sp == ' ' && h1.isDigit && h2.isDigit && c1 == ':' &&
    n1.isDigit && n2.isDigit && c2 == ':' && e1.isDigit && e2.isDigit
  | _ => false

/-- Proleptic Gregorian leap-year test, as used by `chrono`. -/
def isLeapYear (y : Nat) : Bool :=
  (y % 4 == 0 && y % 100 != 0) || y % 400 == 0

/-- Number of days in a month of the proleptic Gregorian calendar. -/
def daysInMonth (y m : Nat) : Nat :=
  match m with
  | 1 => 31
  | 2 => if isLeapYear y then 29 else 28
  | 3 => 31
  | 4 => 30
  | 5 => 31
  | 6 => 30
  | 7 => 31
  | 8 => 31
  | 9 => 30
  | 10 => 31
  | 11 => 30
  | 12 => 31
  | _ => 0

/-- A calendar date, the embedding of `chrono::NaiveDate`. -/
structure NaiveDate : Type where
  year : Nat
  month : Nat
  day : Nat
deriving DecidableEq, Repr

/-- A calendar date with a time of day, the embedding of `chrono::NaiveDateTime`. -/
structure NaiveDateTime : Type where
  year : Nat
  month : Nat
  day : Nat
  hour : Nat
  minute : Nat
  second : Nat
deriving DecidableEq, Repr

/-- Models `chrono::NaiveDate::parse_from_str(value, "%Y-%m-%d")`: three runs of
digits separated by hyphens consuming the whole string, then calendar validity
(month 1–12, day within the month).  `chrono`'s flexible numeric field widths
are approximated by arbitrary digit runs; every theorem below evaluates this
only on inputs with 4-2-2 digit fields. -/
def parseNaiveDate? (s : String) : Option NaiveDate :=
  let (ys, r1) := takeDigits s.data
  match r1 with
  | '-' :: r1b =>
    let (ms, r2) := takeDigits r1b
    match r2 with
    | '-' :: r2b =>
      let (ds, r3) := takeDigits r2b
      if ys.isEmpty || ms.isEmpty || ds.isEmpty || !r3.isEmpty then none
      else
        let y := digitsToNat ys
        let m := digitsToNat ms
        let d := digitsToNat ds
        if 1 ≤ m ∧ m ≤ 12 ∧ 1 ≤ d ∧ d ≤ daysInMonth y m then
          some { year := y, month := m, day := d }
        else none
    | _ => none
  | _ => none

/-- Models `chrono::NaiveDateTime::parse_from_str(value, "%Y-%m-%d %H:%M:%S")`,
with the same field-width approximation as `parseNaiveDate?`.  A second field of
`60` is accepted, as `chrono` admits leap seconds when parsing `%S`. -/
def parseNaiveDateTime? (s : String) : Option NaiveDateTime :=
  let (ys, r1) := takeDigits s.data
  match r1 with
  | '-' :: r1b =>
    let (ms, r2) := takeDigits r1b
    match r2 with
    | '-' :: r2b =>
      let (ds, r3) := takeDigits r2b
      match r3 with
      | ' ' :: r3b =>
        let (hs, r4) := takeDigits r3b
        match r4 with
        | ':' :: r4b =>
          let (ns, r5) := takeDigits r4b
          match r5 with
          | ':' :: r5b =>
            let (es, r6) := takeDigits r5b
            if ys.isEmpty || ms.isEmpty || ds.isEmpty ||
               hs.isEmpty || ns.isEmpty || es.isEmpty || !r6.isEmpty then none
            else
              let y := digitsToNat ys
              let m := digitsToNat ms
              let d := digitsToNat ds
              let hh := digitsToNat hs
              let nn := digitsToNat ns
              let ee := digitsToNat es
              if 1 ≤ m ∧ m ≤ 12 ∧ 1 ≤ d ∧ d ≤ daysInMonth y m ∧
                 hh ≤ 23 ∧ nn ≤ 59 ∧ ee ≤ 60 then
                some { year := y, month := m, day := d,
                       hour := hh, minute := nn, second := ee }
              else none
          | _ => none
        | _ => none
      | _ => none
    | _ => none
  | _ => none

/-! ## Error model

The Rust code returns `SqlQueryEngineError` variants, each carrying a message
built by `format!`.  The distinct `format!` templates are embedded as
constructors carrying the interpolated data; the enclosing Rust variant is named
in each doc comment.
-/

/-- The failure messages produced by `validate_param_type` itself
(`Err(String)` in Rust).  Each constructor records one `format!` template:
* `notAValidInteger value` — `... is not a valid integer`;
* `notAValidFloat value` — `... is not a valid float`;
* `notAValidBoolean value` — `... is not a valid boolean (expected: true/false, 1/0, yes/no, on/off)`;
* `emptyDateTime` — `DateTime cannot be empty`;
* `badDateTimeFormat value` — `... is not a valid datetime format (expected: YYYY-MM-DD, YYYY-MM-DD HH:MM:SS, or ISO 8601)`;
* `emptyDate` — `Date cannot be empty`;
* `badDateFormat value` — `... is not a valid date format (expected: YYYY-MM-DD)`. -/
inductive TypeValidationError : Type
  | notAValidInteger (value : String)
  | notAValidFloat (value : String)
  | notAValidBoolean (value : String)
  | emptyDateTime
  | badDateTimeFormat (value : String)
  | emptyDate
  | badDateFormat (value : String)
deriving DecidableEq, Repr

/-- The ways `check_query_params` can fail.  Every constructor corresponds to a
`SqlQueryEngineError::ErrorCheckParams(format!(..))` with a distinct template:
* `unexpectedParameterCount key n` — template
  `Query ... expects no parameters, but ... parameters were provided`
  with the query `item_key` and the supplied-parameter count;
* `missingRequiredParameter name key` — template
  `Required parameter ... is missing for query ...`;
* `unexpectedParameter name key` — template
  `Unexpected parameter ... provided for query ...`;
* `typeMismatch name key reason` — template
  `Parameter ... validation failed for query ...`, wrapping the message
  produced by `validate_param_type`. -/
inductive CheckParamsError : Type
  | unexpectedParameterCount (key : String) (n : Nat)
  | missingRequiredParameter (name : String) (key : String)
  | unexpectedParameter (name : String) (key : String)
  | typeMismatch (name : String) (key : String) (reason : TypeValidationError)
deriving DecidableEq, Repr


/-- `SqlQueryEngineError` from `src/sql_query_engine_error.rs`.  The Rust
variants each carry a formatted message string; here the two variants whose
sub-cases the claims distinguish carry structured payloads and the remaining
ones keep an opaque message string. -/
inductive SqlQueryEngineError : Type
  | errorGetSqlQuery (msg : String)
  | errorNoQueryFound (item_key : String)
  | errorGetSqlQueryParam (msg : String)
  | errorGetDynamicQuery (msg : String)
  | errorExecutionQuery (msg : String)
  | errorCheckParams (e : CheckParamsError)
deriving DecidableEq, Repr

/-- The per-type conformance check of `SqlDynamicQuery::validate_param_type`
from `src/sql_dynamic_query.rs` (lines 109–179): the `match param_type` body,
which decides membership without producing a converted value. -/
def validate_param_type_checked (param_type : SqlQueryParamType) (value : String) :
    Except TypeValidationError Unit :=
  match param_type with
  | SqlQueryParamType.string => Except.ok ()
  | SqlQueryParamType.i32 =>
    match parseI32? value with
    | some _ => Except.ok ()
    | none => Except.error (TypeValidationError.notAValidInteger value)
  | SqlQueryParamType.f64 =>
    if rustParseF64Accepts value then Except.ok ()
    else Except.error (TypeValidationError.notAValidFloat value)
  | SqlQueryParamType.bool =>
    match toLowerAscii value with
    | "true" | "false" | "1" | "0" | "yes" | "no" | "on" | "off" => Except.ok ()
    | _ => Except.error (TypeValidationError.notAValidBoolean value)
  | SqlQueryParamType.naiveDateTime =>
    if value.isEmpty then Except.error TypeValidationError.emptyDateTime
    else if matchesDateTimePattern value then Except.ok ()
    else Except.error (TypeValidationError.badDateTimeFormat value)
  | SqlQueryParamType.naiveDate =>
    if value.isEmpty then Except.error TypeValidationError.emptyDate
    else if matchesDatePattern value then Except.ok ()
    else Except.error (TypeValidationError.badDateFormat value)

/-- `SqlDynamicQuery::validate_param_type`: tag conversion (panicking — `none` —
on an unrecognized tag) followed by the per-type check. -/
def validate_param_type (expected_type value : String) :
    Option (Except TypeValidationError Unit) :=
  match sqlQueryParamTypeFrom? expected_type with
  | none => none
  | some param_type => some (validate_param_type_checked param_type value)

/-- The second loop of `check_query_params` (lines 72–95): for each supplied
`(name, value)` pair, find the matching spec (else `Unexpected parameter`) and
validate its type (else `Parameter ... validation failed`, wrapping the
`validate_param_type` message).  The outer `Option` propagates the
`SqlQueryParamType::from` panic. -/
def checkSuppliedParams (key : String) (query_params : List SqlQueryParam) :
    List (String × String) → Option (Except CheckParamsError Unit)
  | [] => some (Except.ok ())
  | (param_name, param_value) :: rest =>
    match query_params.find? (fun p => p.param_name == param_name) with
    | none => some (Except.error (CheckParamsError.unexpectedParameter param_name key))
    | some query_param =>
      match validate_param_type query_param.param_type param_value with
      | none => none
      | some (Except.error validation_error) =>
        some (Except.error (CheckParamsError.typeMismatch param_name key validation_error))
      | some (Except.ok ()) => checkSuppliedParams key query_params rest

/-- `SqlDynamicQuery::check_query_params` from `src/sql_dynamic_query.rs`
(lines 38–98).  Sequence of checks, exactly as in the source:
1. if `self.params` is `None`: succeed iff the supplied map is empty, else the
   `expects no parameters` error;
2. first loop: the first declared spec with `is_required == 1` whose name does
   not occur among the supplied keys yields `Required parameter ... is missing`;
3. second loop over the supplied pairs (`checkSuppliedParams`). -/
def check_query_params (q : SqlDynamicQuery) (dynamic_query_data : SqlDynamicQueryData) :
    Option (Except CheckParamsError Unit) :=
  match q.params with
  | none =>
    if !dynamic_query_data.params.isEmpty then
      some (Except.error
        (CheckParamsError.unexpectedParameterCount q.query.item_key
          dynamic_query_data.params.length))
    else some (Except.ok ())
  | some query_params =>
    match query_params.find?
        (fun p => p.is_required == 1 &&
          !(dynamic_query_data.params.any (fun kv => kv.1 == p.param_name))) with
    | some query_param =>
      some (Except.error
        (CheckParamsError.missingRequiredParameter query_param.param_name q.query.item_key))
    | none => checkSuppliedParams q.query.item_key query_params dynamic_query_data.params

/-! ## The bind/execute model (`SqlDynamicQuery::execute`, lines 181–288)

`execute` validates, builds a statement from `self.query.sql_code()`, binds one
converted value per declared parameter in the order of the stored `params`
vector (the source contains a commented-out `params.sort_by_key(|p| p.param_order)`
at line 199 and does **not** sort), and finally hands the bound statement to
`fetch_all` on the pool.  The pool is modelled as a function from the bound
statement to either decoded rows or a database-error message.
-/

/-- A value bound into the statement.  `vF64` keeps the accepted raw numeral
(the claims below never compare float values, only binding success and
positions); the other constructors carry the converted native value. -/
inductive BoundValue : Type
  | vString (s : String)
  | vI32 (n : Int)
  | vF64 (raw : String)
  | vBool (b : Bool)
  | vDate (d : NaiveDate)
  | vDateTime (dt : NaiveDateTime)
deriving DecidableEq, Repr

/-- The ways `execute` can fail.  Each constructor corresponds to one Rust
error site:
* `checkParams e` — the `?` on `check_query_params` (an `ErrorCheckParams`);
* the remaining constructors are `ErrorExecutionQuery(format!(..))` sites:
  `missingParameterNoDefault name` — `Parameter ... is missing and has no default value`;
  `invalidIntegerValue name` — `Invalid integer value for ...`;
  `invalidFloatValue name` — `Invalid float value for ...`;
  `invalidBooleanValue name` — `Invalid boolean value for ...`;
  `invalidDateValue name value` — `... Invalid datetime format for ... Expected format: YYYY-MM-DD`;
  `invalidDateTimeValue name value` — `... Invalid datetime format for ... Expected format: YYYY-MM-DD HH:MM:SS`;
  `queryExecutionFailed key msg` — `Error executing query ...` around `fetch_all`. -/
inductive ExecuteError : Type
  | checkParams (e : CheckParamsError)
  | missingParameterNoDefault (name : String)
  | invalidIntegerValue (name : String)
  | invalidFloatValue (name : String)
  | invalidBooleanValue (name : String)
  | invalidDateValue (name : String) (value : String)
  | invalidDateTimeValue (name : String) (value : String)
  | queryExecutionFailed (key : String) (msg : String)
deriving DecidableEq, Repr

/-- Value resolution for one declared parameter (lines 202–218): the supplied
value for `param_name` if present, else the spec's `default_value`, else the
`is missing and has no default value` error. -/
def resolve_param_value (dynamic_query_data : SqlDynamicQueryData)
    (param : SqlQueryParam) : Except ExecuteError String :=
  match dynamic_query_data.get_param param.param_name with
  | some v => Except.ok v
  | none =>
    match param.default_value with
    | some default => Except.ok default
    | none => Except.error (ExecuteError.missingParameterNoDefault param.param_name)

/-- Conversion of a resolved raw string to the native value bound for the given
parameter type (the `query = match param_type` arm of `execute`, lines 224–276). -/
def convert_param_value (param_name : String) (param_type : SqlQueryParamType)
    (value : String) : Except ExecuteError BoundValue :=
  match param_type with
  | SqlQueryParamType.string => Except.ok (BoundValue.vString value)
  | SqlQueryParamType.i32 =>
    match parseI32? value with
    | some v => Except.ok (BoundValue.vI32 v)
    | none => Except.error (ExecuteError.invalidIntegerValue param_name)
  | SqlQueryParamType.f64 =>
    if rustParseF64Accepts value then Except.ok (BoundValue.vF64 value)
    else Except.error (ExecuteError.invalidFloatValue param_name)
  | SqlQueryParamType.bool =>
    match toLowerAscii value with
    | "true" | "1" | "yes" | "on" => Except.ok (BoundValue.vBool true)
    | "false" | "0" | "no" | "off" => Except.ok (BoundValue.vBool false)
    | _ => Except.error (ExecuteError.invalidBooleanValue param_name)
  | SqlQueryParamType.naiveDate =>
    match parseNaiveDate? value with
    | some dt => Except.ok (BoundValue.vDate dt)
    | none => Except.error (ExecuteError.invalidDateValue param_name value)
  | SqlQueryParamType.naiveDateTime =>
    match parseNaiveDateTime? value with
    | some dt => Except.ok (BoundValue.vDateTime dt)
    | none => Except.error (ExecuteError.invalidDateTimeValue param_name value)

/-- One iteration of the bind loop of `execute` (lines 200–277): resolve the
value (early return on error), then convert the tag through
`SqlQueryParamType::from` (panic — `none` — on an unrecognized tag) and convert
the value. -/
def bind_one_param (dynamic_query_data : SqlDynamicQueryData)
    (param : SqlQueryParam) : Option (Except ExecuteError BoundValue) :=
  match resolve_param_value dynamic_query_data param with
  | Except.error e => some (Except.error e)
  | Except.ok value =>
    match sqlQueryParamTypeFrom? param.param_type with
    | none => none
    | some param_type => some (convert_param_value param.param_name param_type value)

/-- The full bind loop: one bound value per declared parameter, in the order of
the stored `params` vector, stopping at the first error (Rust's early
`return Err`). -/
def bind_params (dynamic_query_data : SqlDynamicQueryData) :
    List SqlQueryParam → Option (Except ExecuteError (List BoundValue))
  | [] => some (Except.ok [])
  | param :: rest =>
    match bind_one_param dynamic_query_data param with
    | none => none
    | some (Except.error e) => some (Except.error e)
    | some (Except.ok v) =>
      match bind_params dynamic_query_data rest with
      | none => none
      | some (Except.error e) => some (Except.error e)
      | some (Except.ok vs) => some (Except.ok (v :: vs))

/-- A fully bound statement, ready to be handed to the pool: the SQL text from
`self.query.sql_code()` plus the positional bind values in bind order. -/
structure BoundStatement : Type where
  sql : String
  binds : List BoundValue
deriving DecidableEq, Repr

/-- Steps 1–2 of `execute`: parameter check (`?` propagation) and construction
of the bound statement.  A query whose `params` is `None` skips the bind loop. -/
def execute_prepare (q : SqlDynamicQuery) (dynamic_query_data : SqlDynamicQueryData) :
    Option (Except ExecuteError BoundStatement) :=
  match check_query_params q dynamic_query_data with
  | none => none
  | some (Except.error e) => some (Except.error (ExecuteError.checkParams e))
  | some (Except.ok ()) =>
    match q.params with
    | none => some (Except.ok { sql := q.query.sql_code, binds := [] })
    | some params =>
      match bind_params dynamic_query_data params with
      | none => none
      | some (Except.error e) => some (Except.error e)
      | some (Except.ok vs) => some (Except.ok { sql := q.query.sql_code, binds := vs })

/-- `SqlDynamicQuery::execute` (lines 181–288).  `pool` is the Query Executor
collaborator: it receives the fully bound statement (the `fetch_all` call) and
returns decoded rows or a database-error message, which `execute` wraps as the
`Error executing query ...` error. -/
def execute {T : Type} (pool : BoundStatement → Except String (List T))
    (q : SqlDynamicQuery) (dynamic_query_data : SqlDynamicQueryData) :
    Option (Except ExecuteError (List T)) :=
  match execute_prepare q dynamic_query_data with
  | none => none
  | some (Except.error e) => some (Except.error e)
  | some (Except.ok stmt) =>
    match pool stmt with
    | Except.ok result => some (Except.ok result)
    | Except.error e =>
      some (Except.error (ExecuteError.queryExecutionFailed q.query.item_key e))

/-! ## Metadata lookup (`SqlQueryManager`, `src/sql_query_manager.rs`)

The database is an external collaborator.  Row fetches are modelled by passing
the relevant table contents in as lists and replaying the SQL of the two
`format!`-built statements: `fetch_optional` on
`SELECT * FROM <queries> WHERE item_key = $1` returns the first matching row,
and the parameter fetch replays the `INNER JOIN` on `item_key`.  Only the
happy path of the pool is modelled; a transport failure maps to
`ErrorGetSqlQuery` / `ErrorGetSqlQueryParam` and is orthogonal to every claim
below. -/

/-- The `fetch_optional` of `get_sql_query_by_item_key`: first row of the
queries table whose `item_key` matches (the source documents `item_key` as
unique, so at most one row matches). -/
def fetch_optional_query (table_query : List SqlQuery) (item_key : String) :
    Option SqlQuery :=
  table_query.find? (fun q => q.item_key == item_key)

/-- `SqlQueryManager::get_sql_query_by_item_key` (lines 52–75): on a fetch that
produced no row the function returns `Err(ErrorNoQueryFound(..))` — the message
template is `get_query_by_item_key : Failed to fetch query with item_key ...: not found` —
and otherwise forwards the fetched `Option` (necessarily `Some`). -/
def get_sql_query_by_item_key (table_query : List SqlQuery) (item_key : String) :
    Except SqlQueryEngineError (Option SqlQuery) :=
  match fetch_optional_query table_query item_key with
  | none => Except.error (SqlQueryEngineError.errorNoQueryFound item_key)
  | some q => Except.ok (some q)

/-- The row set produced by the parameter fetch of
`get_sql_query_params_by_item_key`: parameters whose `item_key` matches the
bound key, inner-joined against the queries table on `item_key` (with the
documented uniqueness of `queries.item_key`, the join contributes exactly an
existence condition). -/
def fetch_param_rows (table_query : List SqlQuery) (table_query_params : List SqlQueryParam)
    (item_key : String) : List SqlQueryParam :=
  if table_query.any (fun q => q.item_key == item_key) then
    table_query_params.filter (fun p => p.item_key == item_key)
  else []

/-- The sort relation of `params.sort_by_key(|p| p.param_order)`. -/
def paramOrderLe (a b : SqlQueryParam) : Prop :=
  a.param_order ≤ b.param_order

instance : DecidableRel paramOrderLe :=
  fun a b => inferInstanceAs (Decidable (a.param_order ≤ b.param_order))

instance : IsTotal SqlQueryParam paramOrderLe :=
  ⟨fun a b => Int.le_total a.param_order b.param_order⟩

instance : IsTrans SqlQueryParam paramOrderLe :=
  ⟨fun _ _ _ h1 h2 => le_trans h1 h2⟩

/-- `params.sort_by_key(|p| p.param_order)`: a stable sort by ascending
`param_order` (Rust's `sort_by_key` is stable; so is insertion sort). -/
def sortByParamOrder (params : List SqlQueryParam) : List SqlQueryParam :=
  params.insertionSort paramOrderLe

/-- `SqlQueryManager::get_sql_query_params_by_item_key` (lines 81–124), applied
to the fetched row set: an empty fetch is `Ok(None)`; otherwise the rows are
sorted by ascending `param_order` and wrapped in `Ok(Some(..))`. -/
def get_sql_query_params_by_item_key (rows : List SqlQueryParam) :
    Except SqlQueryEngineError (Option (List SqlQueryParam)) :=
  if rows.isEmpty then Except.ok none
  else Except.ok (some (sortByParamOrder rows))

/-- `SqlQueryManager::get_sql_dynamic_query` (lines 134–150): fetch the base
query (`?` propagates `ErrorNoQueryFound`), return `Ok(None)` if the base
lookup yielded `Ok(None)`, fetch the parameters, and assemble the
`SqlDynamicQuery`. -/
def get_sql_dynamic_query (table_query : List SqlQuery)
    (table_query_params : List SqlQueryParam) (item_key : String) :
    Except SqlQueryEngineError (Option SqlDynamicQuery) :=
  match get_sql_query_by_item_key table_query item_key with
  | Except.error e => Except.error e
  | Except.ok none => Except.ok none
  | Except.ok (some query) =>
    match get_sql_query_params_by_item_key
        (fetch_param_rows table_query table_query_params item_key) with
    | Except.error e => Except.error e
    | Except.ok params => Except.ok (some { query := query, params := params })

/-! ## Concrete fixtures for counterexamples and witnesses -/

/-- A base query row for the concrete scenarios below. -/
def fixtureQuery : SqlQuery :=
  { id := 1, name := "q", description := none,
    sql_code := "SELECT 1", item_key := "test.key", sign := none }

/-- Builds a parameter row of the fixture query. -/
def mkParam (name ty : String) (ord req : Int) (dflt : Option String) : SqlQueryParam :=
  { id := 0, param_name := name, param_type := ty, param_order := ord,
    is_required := req, default_value := dflt, description := none,
    item_key := "test.key" }

/-! ## Helper instances and lemmas -/

/-- Decidable equality of `Except` results, for the concrete evaluations below. -/
instance {ε α : Type} [DecidableEq ε] [DecidableEq α] : DecidableEq (Except ε α) :=
  fun x y =>
    match x, y with
    | Except.error a, Except.error b =>
      if h : a = b then isTrue (by rw [h])
      else isFalse (by intro hc; injection hc with h2; exact h h2)
    | Except.error _, Except.ok _ => isFalse (by intro hc; exact Except.noConfusion hc)
    | Except.ok _, Except.error _ => isFalse (by intro hc; exact Except.noConfusion hc)
    | Except.ok a, Except.ok b =>
      if h : a = b then isTrue (by rw [h])
      else isFalse (by intro hc; injection hc with h2; exact h h2)

/-- The supplied-parameter loop of `check_query_params` never reports a missing
required parameter: that error is produced only by the first loop. -/
theorem checkSuppliedParams_not_missingRequired (key : String)
    (specs : List SqlQueryParam) (supplied : List (String × String))
    (name k2 : String) :
    checkSuppliedParams key specs supplied ≠
      some (Except.error (CheckParamsError.missingRequiredParameter name k2)) := by
  induction supplied with
  | nil => simp [checkSuppliedParams]
  | cons kv rest ih =>
    obtain ⟨pn, pv⟩ := kv
    unfold checkSuppliedParams
    cases hf : specs.find? (fun p => p.param_name == pn) with
    | none => simp
    | some qp =>
      cases hv : validate_param_type qp.param_type pv with
      | none => simp [hv]
      | some r =>
        cases r with
        | error ve => simp [hv]
        | ok u => cases u; simpa [hv] using ih

/-! ## Claim theorems -/

/-- **C4.** For every key for which the queries table contains no row,
`get_sql_query_by_item_key` returns the `NoQueryFound` error (and in general it
never returns `Ok(None)`), and consequently `get_sql_dynamic_query` on such a
key yields an error rather than a `None` result. -/
theorem C4_no_query_found_is_error (table_query : List SqlQuery)
    (table_query_params : List SqlQueryParam) (item_key : String)
    (h : fetch_optional_query table_query item_key = none) :
    (∀ (tq : List SqlQuery) (k : String), get_sql_query_by_item_key tq k ≠ Except.ok none) ∧
    get_sql_query_by_item_key table_query item_key =
      Except.error (SqlQueryEngineError.errorNoQueryFound item_key) ∧
    get_sql_dynamic_query table_query table_query_params item_key =
      Except.error (SqlQueryEngineError.errorNoQueryFound item_key) := by
  refine ⟨?_, ?_, ?_⟩
  · intro tq k hk
    unfold get_sql_query_by_item_key at hk
    cases hfo : fetch_optional_query tq k <;> rw [hfo] at hk <;> simp at hk
  · unfold get_sql_query_by_item_key
    rw [h]
  · unfold get_sql_dynamic_query get_sql_query_by_item_key
    rw [h]

/-- Witness for C4 at a concrete input: an empty queries table and the key
`missing.key`. -/
theorem C4_no_query_found_is_error_witness :
    get_sql_query_by_item_key [] "missing.key" ≠ Except.ok none ∧
    get_sql_dynamic_query [] [] "missing.key" =
      Except.error (SqlQueryEngineError.errorNoQueryFound "missing.key") :=
  ⟨(C4_no_query_found_is_error [] [] "missing.key" rfl).1 [] "missing.key",
   (C4_no_query_found_is_error [] [] "missing.key" rfl).2.2⟩

/-- **C8.** `SqlQueryParamType::from` fails fatally (panics, i.e. yields `none`
in this embedding) exactly on the tags outside the recognized alias list, and
on every recognized alias it returns a (unique, the function being
deterministic) variant. -/
theorem C8_parse_type_fatal_on_unknown (s : String) :
    (sqlQueryParamTypeFrom? s = none ↔ s ∉ recognizedTypeTags) ∧
    (s ∈ recognizedTypeTags → ∃ t, sqlQueryParamTypeFrom? s = some t) := by
  constructor
  · unfold sqlQueryParamTypeFrom?
    split <;> simp_all [recognizedTypeTags]
  · intro h
    simp only [recognizedTypeTags, List.mem_cons, List.not_mem_nil, or_false] at h
    rcases h with rfl | rfl | rfl | rfl | rfl | rfl | rfl | rfl | rfl | rfl | rfl | rfl | rfl <;>
      exact ⟨_, rfl⟩

/-- Witness for C8 at concrete inputs: the recognized alias `VARCHAR` maps to a
variant; the unrecognized tag `varchar` (wrong case) panics. -/
theorem C8_parse_type_fatal_on_unknown_witness :
    (∃ t, sqlQueryParamTypeFrom? "VARCHAR" = some t) ∧
    sqlQueryParamTypeFrom? "varchar" = none :=
  ⟨(C8_parse_type_fatal_on_unknown "VARCHAR").2 (by decide),
   (C8_parse_type_fatal_on_unknown "varchar").1.mpr (by decide)⟩

/-- **C9.** The parameter list returned by `get_sql_query_params_by_item_key`
is `None` exactly when the fetch yields zero rows, and otherwise `Some` of a
non-empty list sorted in ascending `param_order`; hence every
`SqlDynamicQuery` produced by `get_sql_dynamic_query` carries a `params` field
that is `None` or non-empty and sorted ascending by `param_order`. -/
theorem C9_params_none_or_sorted_nonempty (rows : List SqlQueryParam) :
    (get_sql_query_params_by_item_key rows = Except.ok none ↔ rows = []) ∧
    (∀ l, get_sql_query_params_by_item_key rows = Except.ok (some l) →
      l ≠ [] ∧ List.Sorted paramOrderLe l) ∧
    (∀ (tq : List SqlQuery) (tp : List SqlQueryParam) (key : String)
        (dq : SqlDynamicQuery),
      get_sql_dynamic_query tq tp key = Except.ok (some dq) →
      dq.params = none ∨
        ∃ pl, dq.params = some pl ∧ pl ≠ [] ∧ List.Sorted paramOrderLe pl) := by
  have hmain : ∀ rows' : List SqlQueryParam,
      (get_sql_query_params_by_item_key rows' = Except.ok none ↔ rows' = []) ∧
      (∀ l, get_sql_query_params_by_item_key rows' = Except.ok (some l) →
        l ≠ [] ∧ List.Sorted paramOrderLe l) := by
    intro rows'
    cases rows' with
    | nil => simp [get_sql_query_params_by_item_key]
    | cons a as =>
      constructor
      · simp [get_sql_query_params_by_item_key]
      · intro l hl
        simp only [get_sql_query_params_by_item_key, List.isEmpty_cons,
          if_neg Bool.false_ne_true, Except.ok.injEq, Option.some.injEq] at hl
        subst hl
        refine ⟨?_, List.sorted_insertionSort paramOrderLe (a :: as)⟩
        intro hnil
        have hperm := List.perm_insertionSort paramOrderLe (a :: as)
        rw [sortByParamOrder] at hnil
        rw [hnil] at hperm
        exact absurd hperm.length_eq (by simp)
  refine ⟨(hmain rows).1, (hmain rows).2, ?_⟩
  intro tq tp key dq h
  unfold get_sql_dynamic_query at h
  cases hq : get_sql_query_by_item_key tq key with
  | error e => rw [hq] at h; exact absurd h (by simp)
  | ok oq =>
    cases oq with
    | none => rw [hq] at h; exact absurd h (by simp)
    | some q =>
      rw [hq] at h
      cases hps : get_sql_query_params_by_item_key (fetch_param_rows tq tp key) with
      | error e => rw [hps] at h; exact absurd h (by simp)
      | ok params =>
        rw [hps] at h
        simp only [Except.ok.injEq, Option.some.injEq] at h
        cases params with
        | none => left; rw [← h]
        | some pl =>
          right
          refine ⟨pl, by rw [← h], ?_⟩
          exact (hmain (fetch_param_rows tq tp key)).2 pl hps

/-- Witness for C9 at a concrete input: a single fetched parameter row. -/
theorem C9_params_none_or_sorted_nonempty_witness :
    sortByParamOrder [mkParam "id" "BIGINT" 1 1 none] ≠ [] ∧
    List.Sorted paramOrderLe (sortByParamOrder [mkParam "id" "BIGINT" 1 1 none]) :=
  (C9_params_none_or_sorted_nonempty [mkParam "id" "BIGINT" 1 1 none]).2.1
    (sortByParamOrder [mkParam "id" "BIGINT" 1 1 none]) rfl

/-- **C10.** Whenever `execute` hits a parameter-validation error
(`check_query_params`) or a bind-time resolution/conversion error, the error is
returned before `fetch_all` is reached: the result does not depend on the pool
at all, so no statement is sent to the database. -/
theorem C10_no_fetch_on_param_errors {T : Type} (q : SqlDynamicQuery)
    (d : SqlDynamicQueryData)
    (h : (∃ ce, check_query_params q d = some (Except.error ce)) ∨
         (∃ l be, check_query_params q d = some (Except.ok ()) ∧
           q.params = some l ∧ bind_params d l = some (Except.error be))) :
    ∃ e, (∀ pool : BoundStatement → Except String (List T),
            execute pool q d = some (Except.error e)) ∧
         (∀ pool1 pool2 : BoundStatement → Except String (List T),
            execute pool1 q d = execute pool2 q d) := by
  have hprep : ∃ e, execute_prepare q d = some (Except.error e) := by
    rcases h with ⟨ce, hce⟩ | ⟨l, be, hok, hl, hbe⟩
    · exact ⟨ExecuteError.checkParams ce, by unfold execute_prepare; rw [hce]⟩
    · exact ⟨be, by unfold execute_prepare; rw [hok, hl]; simp [hbe]⟩
  obtain ⟨e, he⟩ := hprep
  refine ⟨e, ?_, ?_⟩
  · intro pool
    unfold execute
    rw [he]
  · intro pool1 pool2
    unfold execute
    rw [he]

/-- Witness for C10 at a concrete input: a query declaring no parameters while
one parameter is supplied (a `check_query_params` failure). -/
theorem C10_no_fetch_on_param_errors_witness :
    ∃ e, (∀ pool : BoundStatement → Except String (List Nat),
            execute pool { query := fixtureQuery, params := none }
              { item_key := "test.key", params := [("x", "1")] } =
              some (Except.error e)) ∧
         (∀ pool1 pool2 : BoundStatement → Except String (List Nat),
            execute pool1 { query := fixtureQuery, params := none }
                { item_key := "test.key", params := [("x", "1")] } =
              execute pool2 { query := fixtureQuery, params := none }
                { item_key := "test.key", params := [("x", "1")] }) :=
  C10_no_fetch_on_param_errors { query := fixtureQuery, params := none }
    { item_key := "test.key", params := [("x", "1")] }
    (Or.inl ⟨CheckParamsError.unexpectedParameterCount "test.key" 1, rfl⟩)

/-- **C7.** For every declared parameter processed at bind time, the value
bound is the supplied value for its name when present, otherwise the spec's
`default_value` when present; when neither exists the bind loop fails with the
missing-parameter-no-default error naming that parameter, and when a value is
resolved the bound value is exactly its conversion at the parameter's type. -/
theorem C7_bind_value_resolution (d : SqlDynamicQueryData) (p : SqlQueryParam) :
    (∀ v, d.get_param p.param_name = some v → resolve_param_value d p = Except.ok v) ∧
    (d.get_param p.param_name = none → ∀ dv, p.default_value = some dv →
      resolve_param_value d p = Except.ok dv) ∧
    (d.get_param p.param_name = none → p.default_value = none →
      bind_one_param d p =
        some (Except.error (ExecuteError.missingParameterNoDefault p.param_name))) ∧
    (∀ v t, resolve_param_value d p = Except.ok v →
      sqlQueryParamTypeFrom? p.param_type = some t →
      bind_one_param d p = some (convert_param_value p.param_name t v)) := by
  refine ⟨?_, ?_, ?_, ?_⟩
  · intro v hv
    unfold resolve_param_value
    rw [hv]
  · intro hn dv hdv
    unfold resolve_param_value
    rw [hn, hdv]
  · intro hn hdv
    unfold bind_one_param resolve_param_value
    rw [hn, hdv]
  · intro v t hres ht
    unfold bind_one_param
    rw [hres, ht]

/-- Witness for C7 at concrete inputs: a supplied value is bound as given, a
parameter absent from the supplied set falls back to its default, and one with
neither fails. -/
theorem C7_bind_value_resolution_witness :
    resolve_param_value { item_key := "test.key", params := [("name", "Dupont")] }
        (mkParam "name" "VARCHAR" 1 0 none) = Except.ok "Dupont" ∧
    resolve_param_value { item_key := "test.key", params := [] }
        (mkParam "name" "VARCHAR" 1 0 (some "Martin")) = Except.ok "Martin" ∧
    bind_one_param { item_key := "test.key", params := [] }
        (mkParam "name" "VARCHAR" 1 0 none) =
      some (Except.error (ExecuteError.missingParameterNoDefault "name")) ∧
    bind_one_param { item_key := "test.key", params := [("name", "Dupont")] }
        (mkParam "name" "VARCHAR" 1 0 none) =
      some (convert_param_value "name" SqlQueryParamType.string "Dupont") :=
  ⟨(C7_bind_value_resolution { item_key := "test.key", params := [("name", "Dupont")] }
      (mkParam "name" "VARCHAR" 1 0 none)).1 "Dupont" rfl,
   (C7_bind_value_resolution { item_key := "test.key", params := [] }
      (mkParam "name" "VARCHAR" 1 0 (some "Martin"))).2.1 rfl "Martin" rfl,
   (C7_bind_value_resolution { item_key := "test.key", params := [] }
      (mkParam "name" "VARCHAR" 1 0 none)).2.2.1 rfl rfl,
   (C7_bind_value_resolution { item_key := "test.key", params := [("name", "Dupont")] }
      (mkParam "name" "VARCHAR" 1 0 none)).2.2.2 "Dupont" SqlQueryParamType.string rfl rfl⟩

/-- Unfolding equation of `check_query_params` for a query without declared
parameters. -/
theorem check_query_params_none_eq (qq : SqlQuery) (d : SqlDynamicQueryData) :
    check_query_params { query := qq, params := none } d =
      (if !d.params.isEmpty then
        some (Except.error
          (CheckParamsError.unexpectedParameterCount qq.item_key d.params.length))
      else some (Except.ok ())) := rfl

/-- Unfolding equation of `check_query_params` for a query with a declared
parameter list. -/
theorem check_query_params_some_eq (qq : SqlQuery) (l : List SqlQueryParam)
    (d : SqlDynamicQueryData) :
    check_query_params { query := qq, params := some l } d =
      (match l.find? (fun p => p.is_required == 1 &&
          !(d.params.any (fun kv => kv.1 == p.param_name))) with
      | some p =>
        some (Except.error
          (CheckParamsError.missingRequiredParameter p.param_name qq.item_key))
      | none => checkSuppliedParams qq.item_key l d.params) := rfl

/-- **C6.** `check_query_params` fails with the `Required parameter ... is
missing` error if and only if some declared spec with `is_required = 1` has no
entry under its name among the supplied values — regardless of whether that
spec carries a `default_value` (the condition does not mention defaults). -/
theorem C6_missing_required_iff (q : SqlDynamicQuery) (d : SqlDynamicQueryData) :
    (∃ name key, check_query_params q d =
        some (Except.error (CheckParamsError.missingRequiredParameter name key))) ↔
    (∃ l, q.params = some l ∧ ∃ p ∈ l, p.is_required = 1 ∧
        ∀ kv ∈ d.params, kv.1 ≠ p.param_name) := by
  obtain ⟨qq, qparams⟩ := q
  constructor
  · rintro ⟨name, key, h⟩
    cases qparams with
    | none =>
      rw [check_query_params_none_eq] at h
      by_cases he : d.params.isEmpty <;> simp [he] at h
    | some l =>
      rw [check_query_params_some_eq] at h
      cases hf : l.find? (fun p => p.is_required == 1 &&
          !(d.params.any (fun kv => kv.1 == p.param_name))) with
      | none =>
        rw [hf] at h
        exact absurd h
          (checkSuppliedParams_not_missingRequired qq.item_key l d.params name key)
      | some p =>
        have hpred := List.find?_some hf
        simp only [Bool.and_eq_true, beq_iff_eq, Bool.not_eq_true',
          List.any_eq_false, beq_eq_false_iff_ne] at hpred
        exact ⟨l, rfl, p, List.mem_of_find?_eq_some hf, hpred.1, hpred.2⟩
  · rintro ⟨l, hl, p, hmem, hreq, habs⟩
    simp only [Option.some.injEq] at hl
    cases hl
    rw [check_query_params_some_eq]
    have hsome : (l.find? (fun p => p.is_required == 1 &&
        !(d.params.any (fun kv => kv.1 == p.param_name)))).isSome := by
      refine List.find?_isSome.mpr ⟨p, hmem, ?_⟩
      simp only [Bool.and_eq_true, beq_iff_eq, Bool.not_eq_true',
        List.any_eq_false, beq_eq_false_iff_ne]
      exact ⟨hreq, habs⟩
    obtain ⟨p2, hp2⟩ := Option.isSome_iff_exists.mp hsome
    rw [hp2]
    exact ⟨p2.param_name, qq.item_key, rfl⟩

/-- Witness for C6 at a concrete input: one required parameter `id`, nothing
supplied (Scenario B of the spec). -/
theorem C6_missing_required_iff_witness :
    ∃ name key,
      check_query_params
        { query := fixtureQuery, params := some [mkParam "id" "BIGINT" 1 1 none] }
        { item_key := "test.key", params := [] } =
      some (Except.error (CheckParamsError.missingRequiredParameter name key)) :=
  (C6_missing_required_iff
    { query := fixtureQuery, params := some [mkParam "id" "BIGINT" 1 1 none] }
    { item_key := "test.key", params := [] }).mpr
    ⟨[mkParam "id" "BIGINT" 1 1 none], rfl, mkParam "id" "BIGINT" 1 1 none,
     List.mem_singleton.mpr rfl, rfl, by intro kv hkv; exact absurd hkv (List.not_mem_nil kv)⟩

/-- **C5, counterexample.** The claim states that for a definition with an
*empty or absent* parameter list, a non-empty supplied mapping fails with the
`UnexpectedParameterCount` error.  For the empty-but-present list `Some([])`
the first loop is skipped and the supplied loop reports `UnexpectedParameter`
instead, so the claim as stated is false. -/
theorem C5_counterexample :
    check_query_params { query := fixtureQuery, params := some [] }
        { item_key := "test.key", params := [("x", "1")] } =
      some (Except.error (CheckParamsError.unexpectedParameter "x" "test.key")) ∧
    check_query_params { query := fixtureQuery, params := some [] }
        { item_key := "test.key", params := [("x", "1")] } ≠
      some (Except.error (CheckParamsError.unexpectedParameterCount "test.key" 1)) :=
  ⟨rfl, by decide⟩

/-- **C5, amended.** For every query definition with no parameters — absent
(`None`) or empty-but-present (`Some([])`) list — `check_query_params` succeeds
if and only if the supplied value mapping is empty.  When the mapping is
non-empty, an absent list fails with the `UnexpectedParameterCount` error,
while an empty-but-present list (never produced by
`get_sql_query_params_by_item_key`, which maps an empty fetch to `None`) fails
with the `UnexpectedParameter` error naming a supplied key. -/
theorem C5_amended_no_params (q : SqlDynamicQuery) (d : SqlDynamicQueryData)
    (h : q.params = none ∨ q.params = some []) :
    (check_query_params q d = some (Except.ok ()) ↔ d.params = []) ∧
    (q.params = none → d.params ≠ [] →
      check_query_params q d = some (Except.error
        (CheckParamsError.unexpectedParameterCount q.query.item_key d.params.length))) ∧
    (q.params = some [] → d.params ≠ [] →
      ∃ name value, (name, value) ∈ d.params ∧
        check_query_params q d = some (Except.error
          (CheckParamsError.unexpectedParameter name q.query.item_key))) := by
  obtain ⟨qq, qparams⟩ := q
  obtain ⟨dk, dparams⟩ := d
  rcases h with h | h <;> simp only at h <;> cases h
  · refine ⟨?_, ?_, ?_⟩
    · rw [check_query_params_none_eq]
      cases dparams with
      | nil => simp
      | cons kv rest => simp
    · intro _ hne
      rw [check_query_params_none_eq]
      cases dparams with
      | nil => exact absurd rfl hne
      | cons kv rest => simp
    · intro hcontra
      exact absurd hcontra (by simp)
  · refine ⟨?_, ?_, ?_⟩
    · rw [check_query_params_some_eq]
      cases dparams with
      | nil => simp [checkSuppliedParams]
      | cons kv rest =>
        obtain ⟨n, v⟩ := kv
        simp [checkSuppliedParams]
    · intro hcontra
      exact absurd hcontra (by simp)
    · intro _ hne
      rw [check_query_params_some_eq]
      cases dparams with
      | nil => exact absurd rfl hne
      | cons kv rest =>
        obtain ⟨n, v⟩ := kv
        refine ⟨n, v, List.mem_cons_self _ _, ?_⟩
        simp [checkSuppliedParams]

/-- Witness for the amended C5 at concrete inputs: with no declared parameters
and nothing supplied, validation succeeds; with the absent list and one
supplied entry it fails with the parameter-count error. -/
theorem C5_amended_no_params_witness :
    check_query_params { query := fixtureQuery, params := none }
        { item_key := "test.key", params := [] } = some (Except.ok ()) ∧
    check_query_params { query := fixtureQuery, params := none }
        { item_key := "test.key", params := [("x", "1")] } =
      some (Except.error (CheckParamsError.unexpectedParameterCount "test.key" 1)) :=
  ⟨(C5_amended_no_params { query := fixtureQuery, params := none }
      { item_key := "test.key", params := [] } (Or.inl rfl)).1.mpr rfl,
   (C5_amended_no_params { query := fixtureQuery, params := none }
      { item_key := "test.key", params := [("x", "1")] } (Or.inl rfl)).2.1 rfl (by decide)⟩

/-- **C3, counterexample.** The claim states that a definition declaring the
required parameter `item_date_end`, supplied with the typo key
`item_date_ende` instead, fails with `UnexpectedParameter("item_date_ende")`.
The source checks required-presence first, so it fails with
`MissingRequiredParameter("item_date_end")` instead. -/
theorem C3_counterexample :
    check_query_params
        { query := fixtureQuery,
          params := some [mkParam "item_date_end" "DATE" 1 1 none] }
        { item_key := "test.key", params := [("item_date_ende", "2055-01-01")] } =
      some (Except.error
        (CheckParamsError.missingRequiredParameter "item_date_end" "test.key")) ∧
    check_query_params
        { query := fixtureQuery,
          params := some [mkParam "item_date_end" "DATE" 1 1 none] }
        { item_key := "test.key", params := [("item_date_ende", "2055-01-01")] } ≠
      some (Except.error
        (CheckParamsError.unexpectedParameter "item_date_ende" "test.key")) :=
  ⟨rfl, by decide⟩

/-- **C3, amended.** For every definition declaring a required parameter named
`item_date_end` and every supplied set that omits `item_date_end` (such as one
carrying the typo key `item_date_ende` instead), `check_query_params` fails
with a `MissingRequiredParameter` error — the required-presence check runs
before unexpected-key rejection — and not with
`UnexpectedParameter("item_date_ende")`. -/
theorem C3_amended_missing_required_first (q : SqlDynamicQuery)
    (d : SqlDynamicQueryData) (l : List SqlQueryParam)
    (hl : q.params = some l)
    (hdecl : ∃ p ∈ l, p.param_name = "item_date_end" ∧ p.is_required = 1)
    (hmiss : ∀ kv ∈ d.params, kv.1 ≠ "item_date_end")
    (_htypo : ∃ v, ("item_date_ende", v) ∈ d.params) :
    (∃ name, check_query_params q d = some (Except.error
      (CheckParamsError.missingRequiredParameter name q.query.item_key))) ∧
    check_query_params q d ≠ some (Except.error
      (CheckParamsError.unexpectedParameter "item_date_ende" q.query.item_key)) := by
  obtain ⟨qq, qparams⟩ := q
  simp only at hl
  cases hl
  obtain ⟨p, hmem, hname, hreq⟩ := hdecl
  have hfound : (∃ name, check_query_params { query := qq, params := some l } d =
      some (Except.error
        (CheckParamsError.missingRequiredParameter name qq.item_key))) := by
    rw [check_query_params_some_eq]
    have hsome : (l.find? (fun p => p.is_required == 1 &&
        !(d.params.any (fun kv => kv.1 == p.param_name)))).isSome := by
      refine List.find?_isSome.mpr ⟨p, hmem, ?_⟩
      simp only [Bool.and_eq_true, beq_iff_eq, Bool.not_eq_true',
        List.any_eq_false, beq_eq_false_iff_ne]
      exact ⟨hreq, by rw [hname]; exact hmiss⟩
    obtain ⟨p2, hp2⟩ := Option.isSome_iff_exists.mp hsome
    rw [hp2]
    exact ⟨p2.param_name, rfl⟩
  refine ⟨hfound, ?_⟩
  obtain ⟨n, hn⟩ := hfound
  rw [hn]
  intro hcontra
  simp only [Option.some.injEq] at hcontra
  injection hcontra with hcontra2
  exact CheckParamsError.noConfusion hcontra2

/-- Witness for the amended C3 at the concrete typo scenario. -/
theorem C3_amended_missing_required_first_witness :
    ∃ name, check_query_params
        { query := fixtureQuery,
          params := some [mkParam "item_date_end" "DATE" 1 1 none] }
        { item_key := "test.key", params := [("item_date_ende", "2055-01-01")] } =
      some (Except.error
        (CheckParamsError.missingRequiredParameter name "test.key")) :=
  (C3_amended_missing_required_first
    { query := fixtureQuery,
      params := some [mkParam "item_date_end" "DATE" 1 1 none] }
    { item_key := "test.key", params := [("item_date_ende", "2055-01-01")] }
    [mkParam "item_date_end" "DATE" 1 1 none] rfl
    ⟨mkParam "item_date_end" "DATE" 1 1 none, List.mem_singleton.mpr rfl, rfl, rfl⟩
    (by intro kv hkv; simp only [List.mem_singleton] at hkv; rw [hkv]; decide)
    ⟨"2055-01-01", List.mem_singleton.mpr rfl⟩).1

/-- **C2, counterexample.** The claim states that every value accepted by
`validate_param_type` for a type also succeeds native conversion in `execute`
(for `Date`, every string matching the accepted pattern must parse as a real
calendar date).  The string `2023-13-45` matches `^\d{4}-\d{2}-\d{2}$` and
passes validation for the `DATE` type, yet `chrono` rejects month 13, so the
bind-time conversion fails. -/
theorem C2_counterexample :
    validate_param_type "DATE" "2023-13-45" = some (Except.ok ()) ∧
    parseNaiveDate? "2023-13-45" = none ∧
    bind_one_param { item_key := "test.key", params := [("item_date", "2023-13-45")] }
        (mkParam "item_date" "DATE" 1 1 none) =
      some (Except.error (ExecuteError.invalidDateValue "item_date" "2023-13-45")) :=
  ⟨rfl, rfl, rfl⟩

/-- Unfolding equation of `validate_param_type` for a recognized tag. -/
theorem validate_param_type_of_tag (tag value : String) (t : SqlQueryParamType)
    (htag : sqlQueryParamTypeFrom? tag = some t) :
    validate_param_type tag value = some (validate_param_type_checked t value) := by
  unfold validate_param_type
  rw [htag]

/-- **C2, amended.** For the types `String`, `I32`, `F64` and `Bool`, every
raw value accepted by `validate_param_type` also succeeds the bind-time native
conversion of `execute` (for `I32` and `F64` both sides call the identical
Rust parse; for `Bool` both sides accept the same eight lower-cased tokens).
For `Date` and `DateTime` the pattern check is strictly weaker than the
bind-time `chrono` parse, so the round-trip property fails there (see the
counterexample). -/
theorem C2_amended_roundtrip_non_date (tag value param_name : String)
    (t : SqlQueryParamType)
    (htag : sqlQueryParamTypeFrom? tag = some t)
    (hd1 : t ≠ SqlQueryParamType.naiveDate)
    (hd2 : t ≠ SqlQueryParamType.naiveDateTime)
    (hv : validate_param_type tag value = some (Except.ok ())) :
    ∃ bv, convert_param_value param_name t value = Except.ok bv := by
  rw [validate_param_type_of_tag tag value t htag] at hv
  simp only [Option.some.injEq] at hv
  cases t with
  | string => exact ⟨BoundValue.vString value, rfl⟩
  | i32 =>
    cases hp : parseI32? value with
    | none =>
      simp only [validate_param_type_checked, hp] at hv
      exact Except.noConfusion hv
    | some n =>
      refine ⟨BoundValue.vI32 n, ?_⟩
      simp only [convert_param_value]
      rw [hp]
  | f64 =>
    cases hacc : rustParseF64Accepts value with
    | false => simp only [validate_param_type_checked, hacc] at hv; simp at hv
    | true =>
      refine ⟨BoundValue.vF64 value, ?_⟩
      simp [convert_param_value, hacc]
  | bool =>
    simp only [validate_param_type_checked] at hv
    split at hv <;> try simp at hv
    all_goals
      rename_i heq
    all_goals
      exact ⟨_, by simp only [convert_param_value, heq]; rfl⟩
  | naiveDate => exact absurd rfl hd1
  | naiveDateTime => exact absurd rfl hd2

/-- Witness for the amended C2 at concrete inputs: `42` accepted for `BIGINT`
converts, and `Off` accepted for `BOOLEAN` converts (to `false`). -/
theorem C2_amended_roundtrip_non_date_witness :
    (∃ bv, convert_param_value "id" SqlQueryParamType.i32 "42" = Except.ok bv) ∧
    (∃ bv, convert_param_value "flag" SqlQueryParamType.bool "Off" = Except.ok bv) :=
  ⟨C2_amended_roundtrip_non_date "BIGINT" "42" "id" SqlQueryParamType.i32 rfl
      (by decide) (by decide) rfl,
   C2_amended_roundtrip_non_date "BOOLEAN" "Off" "flag" SqlQueryParamType.bool rfl
      (by decide) (by decide) rfl⟩

/-- **C1, counterexample.** The claim states that `execute` binds values in
ascending `param_order` for *every* `SqlDynamicQuery`, so that any permutation
of the stored `params` vector yields the same bound sequence.  `execute` does
not sort (the `sort_by_key` at line 199 of `src/sql_dynamic_query.rs` is
commented out): it binds in the stored vector order.  With the vector stored
as `[order 2 ("b"), order 1 ("a")]` and both values supplied and valid, the
bound sequence is `[vb, va]`, not the ascending-order sequence `[va, vb]`. -/
theorem C1_counterexample :
    check_query_params
        { query := fixtureQuery,
          params := some [mkParam "b" "VARCHAR" 2 1 none, mkParam "a" "VARCHAR" 1 1 none] }
        { item_key := "test.key", params := [("a", "va"), ("b", "vb")] } =
      some (Except.ok ()) ∧
    bind_params { item_key := "test.key", params := [("a", "va"), ("b", "vb")] }
        [mkParam "b" "VARCHAR" 2 1 none, mkParam "a" "VARCHAR" 1 1 none] =
      some (Except.ok [BoundValue.vString "vb", BoundValue.vString "va"]) ∧
    bind_params { item_key := "test.key", params := [("a", "va"), ("b", "vb")] }
        (sortByParamOrder [mkParam "b" "VARCHAR" 2 1 none, mkParam "a" "VARCHAR" 1 1 none]) =
      some (Except.ok [BoundValue.vString "va", BoundValue.vString "vb"]) ∧
    ([BoundValue.vString "vb", BoundValue.vString "va"] : List BoundValue) ≠
      [BoundValue.vString "va", BoundValue.vString "vb"] :=
  ⟨rfl, rfl, rfl, by decide⟩

/-- Stable sorts of permuted row sets with pairwise-distinct `param_order`
coincide: the sorted result is determined by the key sequence alone. -/
theorem sortByParamOrder_eq_of_perm (rows rows2 : List SqlQueryParam)
    (hperm : rows.Perm rows2)
    (hnodup : (rows.map SqlQueryParam.param_order).Nodup) :
    sortByParamOrder rows = sortByParamOrder rows2 := by
  have hlt : ∀ l : List SqlQueryParam,
      List.Sorted paramOrderLe l → (l.map SqlQueryParam.param_order).Nodup →
      List.Sorted (fun a b : SqlQueryParam => a.param_order < b.param_order) l := by
    intro l hs hnd
    have hne : l.Pairwise (fun a b : SqlQueryParam => a.param_order ≠ b.param_order) :=
      List.pairwise_map.mp hnd
    exact (hs.and hne).imp (fun h => lt_of_le_of_ne h.1 h.2)
  have hp1 := List.perm_insertionSort paramOrderLe rows
  have hp2 := List.perm_insertionSort paramOrderLe rows2
  have hnd1 : ((sortByParamOrder rows).map SqlQueryParam.param_order).Nodup :=
    ((hp1.map SqlQueryParam.param_order).nodup_iff).mpr hnodup
  have hnd2 : ((sortByParamOrder rows2).map SqlQueryParam.param_order).Nodup := by
    refine ((hp2.map SqlQueryParam.param_order).nodup_iff).mpr ?_
    exact ((hperm.map SqlQueryParam.param_order).nodup_iff).mp hnodup
  have hs1 := hlt (sortByParamOrder rows)
    (List.sorted_insertionSort paramOrderLe rows) hnd1
  have hs2 := hlt (sortByParamOrder rows2)
    (List.sorted_insertionSort paramOrderLe rows2) hnd2
  have hperm12 : (sortByParamOrder rows).Perm (sortByParamOrder rows2) :=
    (hp1.trans hperm).trans hp2.symm
  haveI : IsAntisymm SqlQueryParam (fun a b : SqlQueryParam => a.param_order < b.param_order) :=
    ⟨fun _ _ h1 h2 => absurd h2 (lt_asymm h1)⟩
  exact List.eq_of_perm_of_sorted hperm12 hs1 hs2

/-- **C1, amended.** `execute` binds values in the order of the stored `params`
vector.  For parameter row sets with pairwise-distinct `param_order` — the
intended configuration, since `param_order` defines the positional placeholder
sequence — the manager's sort (`get_sql_query_params_by_item_key`) makes the
stored vector, and hence `execute`'s bound sequence, independent of the fetch
permutation and ascending in `param_order`. -/
theorem C1_amended_bind_order (rows rows2 : List SqlQueryParam)
    (query : SqlQuery) (d : SqlDynamicQueryData)
    (hperm : rows.Perm rows2)
    (hnodup : (rows.map SqlQueryParam.param_order).Nodup) :
    sortByParamOrder rows = sortByParamOrder rows2 ∧
    List.Sorted paramOrderLe (sortByParamOrder rows) ∧
    execute_prepare { query := query, params := some (sortByParamOrder rows) } d =
      execute_prepare { query := query, params := some (sortByParamOrder rows2) } d := by
  have h1 := sortByParamOrder_eq_of_perm rows rows2 hperm hnodup
  exact ⟨h1, List.sorted_insertionSort paramOrderLe rows, by rw [h1]⟩

/-- Witness for the amended C1 at a concrete input: the two fetch orders of two
rows with distinct `param_order` sort identically, and the prepared statements
coincide. -/
theorem C1_amended_bind_order_witness :
    sortByParamOrder [mkParam "b" "VARCHAR" 2 1 none, mkParam "a" "VARCHAR" 1 1 none] =
      sortByParamOrder [mkParam "a" "VARCHAR" 1 1 none, mkParam "b" "VARCHAR" 2 1 none] ∧
    List.Sorted paramOrderLe
      (sortByParamOrder [mkParam "b" "VARCHAR" 2 1 none, mkParam "a" "VARCHAR" 1 1 none]) ∧
    execute_prepare
        { query := fixtureQuery,
          params := some (sortByParamOrder
            [mkParam "b" "VARCHAR" 2 1 none, mkParam "a" "VARCHAR" 1 1 none]) }
        { item_key := "test.key", params := [("a", "va"), ("b", "vb")] } =
      execute_prepare
        { query := fixtureQuery,
          params := some (sortByParamOrder
            [mkParam "a" "VARCHAR" 1 1 none, mkParam "b" "VARCHAR" 2 1 none]) }
        { item_key := "test.key", params := [("a", "va"), ("b", "vb")] } :=
  C1_amended_bind_order
    [mkParam "b" "VARCHAR" 2 1 none, mkParam "a" "VARCHAR" 1 1 none]
    [mkParam "a" "VARCHAR" 1 1 none, mkParam "b" "VARCHAR" 2 1 none]
    fixtureQuery { item_key := "test.key", params := [("a", "va"), ("b", "vb")] }
    (List.Perm.swap _ _ _) (by decide)
